import Mathlib

/-!
Verification of the LightKernel scheduler core against its specification.

The definitions below are a shallow embedding of the Rust sources:
  src/kernel/scheduler/core/core_scheduler.rs
  src/kernel/scheduler/cpufreq/cpufreq.rs
  src/kernel/scheduler/cpuidle/cpuidle.rs
  src/kernel/scheduler/psi/psi.rs
Machine integers (u64, usize) are modelled as Nat; on every path the
claims exercise, subtraction cannot wrap, so Nat truncated subtraction
agrees with u64 arithmetic there.  The f64 pressure values of the PSI
module are modelled as rationals: the code only ever compares them with
each other and with the integer thresholds, and those comparisons agree
with the ordered-field comparisons on Rat for all finite inputs.
Calls into scheduler sub-modules whose sources are outside this
repository (the per-class pick functions, the preemption predicates, the
migration engine, the hardware cpufreq and cpuidle drivers, the pressure
tracker) are passed in as explicit oracle arguments, so a theorem about
these definitions holds for every possible behaviour of those externals.
-/

/-- SchedTask lifecycle states, from the data model of the spec and the
uses in core_scheduler.rs (only Running is inspected by the embedded code). -/
inductive TaskState where
  | Created
  | Runnable
  | Running
  | Blocked
  | Stopped
  | Dead
deriving DecidableEq, Repr

/-- SchedPolicy from core_scheduler.rs lines 120 to 137. -/
inductive SchedPolicy where
  | Normal
  | Fifo
  | RoundRobin
  | Batch
  | Idle
  | Deadline
  | Interactive
  | Background
deriving DecidableEq, Repr

/-- SchedulerState from core_scheduler.rs lines 88 to 103. -/
inductive SchedulerState where
  | Uninitialized
  | Initializing
  | Running
  | Suspended
  | Stopping
  | Stopped
  | Error
deriving DecidableEq, Repr

/-- SchedulerState.can_schedule from core_scheduler.rs lines 107 to 109:
true exactly for the Running state.  The is_running guard used by
schedule, wake_up_task and load_balance checks this condition. -/
def SchedulerState.can_schedule : SchedulerState → Bool
  | SchedulerState.Running => true
  | _ => false

/-- The scheduler error variants of crate kernel::error that the embedded
functions return (SchedulerError in core_scheduler.rs). -/
inductive SchedulerError where
  | NotRunning
  | EmergencyStop
  | TaskNotFound
  | MigrationNotAllowed
  | AffinityViolation
deriving DecidableEq, Repr

/-- ScheduleResult from core_scheduler.rs lines 252 to 261; task ids are Nat. -/
inductive ScheduleResult where
  | KeepCurrent
  | SwitchTo (id : Nat)
  | GoIdle
  | RescheduleImmediate
deriving DecidableEq, Repr

/-- The scheduler-visible attributes of a SchedTask (crate kernel::task) that
the embedded core_scheduler.rs functions read or write: id, state,
policy, current cpu, affinity mask (as the list of allowed cpu ids) and
the wake timestamp. -/
structure SchedTask where
  id : Nat
  state : TaskState
  policy : SchedPolicy
  current_cpu : Nat
  affinity : List Nat
  wake_time : Nat
deriving DecidableEq, Repr

/-- Oracle for the external per-class sub-schedulers consulted by
make_scheduling_decision: the candidate (if any) each of the classes
pick_next_task returns for the current cpu, and the value of each
should_preempt_for predicate for the current task against that
candidate.  These live in modules outside this repository. -/
structure DecisionOracle where
  stop_pick : Option Nat
  rt_pick : Option Nat
  dl_pick : Option Nat
  fair_pick : Option Nat
  should_preempt_for_rt : Bool
  should_preempt_for_deadline : Bool
  should_preempt_for_fair : Bool
deriving DecidableEq, Repr

/-- The fair stage and the final fallback of make_scheduling_decision,
core_scheduler.rs lines 516 to 538: a fair candidate always resolves the
decision (switch or keep); with no candidate, a still-Running current
task is kept, otherwise the cpu goes idle. -/
def decision_fair (current : Option SchedTask) (o : DecisionOracle) : ScheduleResult :=
  match o.fair_pick with
  | some f =>
    match current with
    | some _ =>
      if o.should_preempt_for_fair then ScheduleResult.SwitchTo f
      else ScheduleResult.KeepCurrent
    | none => ScheduleResult.SwitchTo f
  | none =>
    match current with
    | some c =>
      if c.state = TaskState.Running then ScheduleResult.KeepCurrent
      else ScheduleResult.GoIdle
    | none => ScheduleResult.GoIdle

/-- The deadline stage of make_scheduling_decision, core_scheduler.rs
lines 504 to 514: a deadline candidate wins immediately when there is no
current task, preempts when should_preempt_for_deadline holds, and
otherwise the decision falls through to the fair stage. -/
def decision_deadline (current : Option SchedTask) (o : DecisionOracle) : ScheduleResult :=
  match o.dl_pick with
  | some d =>
    match current with
    | some _ =>
      if o.should_preempt_for_deadline then ScheduleResult.SwitchTo d
      else decision_fair current o
    | none => ScheduleResult.SwitchTo d
  | none => decision_fair current o

/-- The real-time stage of make_scheduling_decision, core_scheduler.rs
lines 491 to 502: an rt candidate wins immediately when there is no
current task, preempts when should_preempt_for_rt holds, and otherwise
the decision falls through to the deadline stage. -/
def decision_rt (current : Option SchedTask) (o : DecisionOracle) : ScheduleResult :=
  match o.rt_pick with
  | some r =>
    match current with
    | some _ =>
      if o.should_preempt_for_rt then ScheduleResult.SwitchTo r
      else decision_deadline current o
    | none => ScheduleResult.SwitchTo r
  | none => decision_deadline current o

/-- make_scheduling_decision from core_scheduler.rs lines 482 to 539:
a stop-class candidate wins outright, then the rt, deadline and fair
stages run in the order the source queries them. -/
def make_scheduling_decision (current : Option SchedTask) (o : DecisionOracle) : ScheduleResult :=
  match o.stop_pick with
  | some t => ScheduleResult.SwitchTo t
  | none => decision_rt current o

/-- Modelled from the spec: the class-query order the specification
prescribes (Stop, then Deadline, then RT, then Fair, then Idle; the
first class returning a candidate wins), written for comparison with
make_scheduling_decision, which is embedded from the source.  The
preemption handling at each stage mirrors the source structure; only
the relative order of the Deadline and RT queries differs. -/
def spec_order_decision (current : Option SchedTask) (o : DecisionOracle) : ScheduleResult :=
  match o.stop_pick with
  | some t => ScheduleResult.SwitchTo t
  | none =>
    match o.dl_pick with
    | some d =>
      match current with
      | some _ =>
        if o.should_preempt_for_deadline then ScheduleResult.SwitchTo d
        else
          match o.rt_pick with
          | some r =>
            match current with
            | some _ =>
              if o.should_preempt_for_rt then ScheduleResult.SwitchTo r
              else decision_fair current o
            | none => ScheduleResult.SwitchTo r
          | none => decision_fair current o
      | none => ScheduleResult.SwitchTo d
    | none =>
      match o.rt_pick with
      | some r =>
        match current with
        | some _ =>
          if o.should_preempt_for_rt then ScheduleResult.SwitchTo r
          else decision_fair current o
        | none => ScheduleResult.SwitchTo r
      | none => decision_fair current o

/-- The runqueue a wake-up enqueues into, one constructor per enqueue
entry point called by wake_up_task: FairScheduler.enqueue_task,
FairScheduler.enqueue_task_batch, RtScheduler.enqueue_task,
DeadlineScheduler.enqueue_task, IdleScheduler.enqueue_task. -/
inductive RunQueue where
  | fair
  | fairBatch
  | rt
  | deadline
  | idleQ
deriving DecidableEq, Repr

/-- The subset of the global SchedulerStats counters
(core_scheduler.rs lines 172 to 201) touched by the embedded functions. -/
structure SchedulerStats where
  context_switches : Nat
  preemptions : Nat
  migrations : Nat
  load_balance_calls : Nat
  scheduler_ticks : Nat
deriving DecidableEq, Repr

/-- The CoreScheduler fields (core_scheduler.rs lines 324 to 359) that
the embedded operations read or write: the state machine word, the
emergency-stop flag, the tick counter, the last balance timestamp, the
configured balance interval (config.load_balance.balance_interval) and
the global statistics. -/
structure CoreState where
  state : SchedulerState
  emergency_stop : Bool
  tick_counter : Nat
  last_balance_time : Nat
  balance_interval : Nat
  stats : SchedulerStats
deriving DecidableEq, Repr

/-- wake_up_task from core_scheduler.rs lines 611 to 654.  Returns the
updated task (state set to Runnable, wake time recorded) together with
the runqueue the task was enqueued on and whether a reschedule was
requested.  The rt and deadline should_preempt_current predicates are
external and passed as oracle booleans; the enqueue calls themselves
are external, so the observable effect modelled is which one is made. -/
def wake_up_task (st : CoreState) (now : Nat)
    (rtPreempt dlPreempt : Bool) (task : SchedTask) :
    Except SchedulerError (SchedTask × RunQueue × Bool) :=
  if st.state.can_schedule = false then Except.error SchedulerError.NotRunning
  else
    let task2 : SchedTask := { task with state := TaskState.Runnable, wake_time := now }
    match task.policy with
    | SchedPolicy.Normal => Except.ok (task2, RunQueue.fair, false)
    | SchedPolicy.Interactive => Except.ok (task2, RunQueue.fair, false)
    | SchedPolicy.Batch => Except.ok (task2, RunQueue.fairBatch, false)
    | SchedPolicy.Background => Except.ok (task2, RunQueue.fairBatch, false)
    | SchedPolicy.Fifo => Except.ok (task2, RunQueue.rt, rtPreempt)
    | SchedPolicy.RoundRobin => Except.ok (task2, RunQueue.rt, rtPreempt)
    | SchedPolicy.Deadline => Except.ok (task2, RunQueue.deadline, dlPreempt)
    | SchedPolicy.Idle => Except.ok (task2, RunQueue.idleQ, false)

/-- schedule from core_scheduler.rs lines 445 to 479.  The guard order
is embedded exactly: the is_running check, then the emergency-stop
check (the external emergency_shutdown drain is modelled by the
EmergencyStop error, following the failure-modes paragraph of the
spec), then the tick-counter and tick-statistic increments and the
scheduling decision.  The subsystem-update, load-balance and
execute steps call external modules and are modelled as not failing;
the decision made is returned alongside the updated state. -/
def schedule (current : Option SchedTask) (o : DecisionOracle) (st : CoreState) :
    Except SchedulerError (CoreState × ScheduleResult) :=
  if st.state.can_schedule = false then Except.error SchedulerError.NotRunning
  else if st.emergency_stop then Except.error SchedulerError.EmergencyStop
  else
    let st2 : CoreState :=
      { st with
        tick_counter := st.tick_counter + 1,
        stats := { st.stats with scheduler_ticks := st.stats.scheduler_ticks + 1 } }
    Except.ok (st2, make_scheduling_decision current o)

/-- load_balance from core_scheduler.rs lines 657 to 691.  When the
scheduler is not running it returns Ok without touching anything.
Otherwise it counts the call, returns early when called again within
balance_interval times one million nanoseconds of the last balance, and
otherwise runs the external migration engine (whose migration count is
the oracle argument migrated), adds that count to the migration
statistic and records the balance time. -/
def load_balance (now : Nat) (migrated : Nat) (st : CoreState) :
    Except SchedulerError CoreState :=
  if st.state.can_schedule = false then Except.ok st
  else
    let st2 : CoreState :=
      { st with stats :=
        { st.stats with load_balance_calls := st.stats.load_balance_calls + 1 } }
    if now - st.last_balance_time < st.balance_interval * 1000000 then Except.ok st2
    else
      Except.ok
        { st2 with
          last_balance_time := now,
          stats := { st2.stats with migrations := st2.stats.migrations + migrated } }

/-- migrate_task from core_scheduler.rs lines 694 to 716.  The external
SchedTask.can_migrate_to check is the oracle boolean canMigrate; the external
MigrationScheduler.migrate_task_safe outcome is the oracle safeResult,
an error or the migrated task.  On success the migrations statistic is
incremented. -/
def migrate_task (canMigrate : Bool) (safeResult : Except SchedulerError SchedTask)
    (st : CoreState) (task : SchedTask) (target : Nat) :
    Except SchedulerError (CoreState × SchedTask) :=
  if canMigrate = false then Except.error SchedulerError.MigrationNotAllowed
  else if task.affinity.contains target = false then
    Except.error SchedulerError.AffinityViolation
  else
    match safeResult with
    | Except.error e => Except.error e
    | Except.ok task2 =>
      Except.ok
        ({ st with stats := { st.stats with migrations := st.stats.migrations + 1 } },
         task2)

/-- The error variants of CpuFreqImplError (crate cpufreq_impl) that
cpufreq.rs returns. -/
inductive CpuFreqImplError where
  | NotInitialized
  | RateLimited
  | InvalidFrequency
  | UnsupportedFrequency
  | ThermalThrottled
  | NoFrequenciesAvailable
  | InvalidParameter
deriving DecidableEq, Repr

/-- MIN_SAFE_FREQUENCY from cpufreq.rs line 59 (400 MHz, in Hz). -/
def MIN_SAFE_FREQUENCY : Nat := 400000000

/-- MAX_SAFE_FREQUENCY from cpufreq.rs line 60 (5 GHz, in Hz). -/
def MAX_SAFE_FREQUENCY : Nat := 5000000000

/-- FREQ_CHANGE_MIN_INTERVAL_US from cpufreq.rs line 61 (10 ms minimum
between frequency changes, in microseconds). -/
def FREQ_CHANGE_MIN_INTERVAL_US : Nat := 10000

/-- THERMAL_THROTTLE_TEMP from cpufreq.rs line 64 (85 degrees Celsius). -/
def THERMAL_THROTTLE_TEMP : Nat := 85

/-- THERMAL_CRITICAL_TEMP from cpufreq.rs line 65 (95 degrees Celsius). -/
def THERMAL_CRITICAL_TEMP : Nat := 95

/-- The cpufreq module state read or written by set_frequency: the
INITIALIZED flag, the LAST_FREQ_CHANGE timestamp (microseconds), the
frequency the hardware driver reports as current, the list the driver reports of
available frequencies (Hz), and the thermal reading get_thermal_info
yields (none when thermal information is unavailable, matching the
discarded error of the if-let at cpufreq.rs line 267). -/
structure CpuFreqState where
  initialized : Bool
  last_freq_change : Nat
  current_frequency : Nat
  available_frequencies : List Nat
  temperature : Option Nat
deriving DecidableEq, Repr

/-- set_frequency from cpufreq.rs lines 241 to 298, with the guards in
source order: the ensure_initialized check, the rate limit against
LAST_FREQ_CHANGE, the safe-range check, the availability check, then
the thermal gate (any request is rejected above the critical
temperature; above the throttle temperature an increase beyond ten
percent over the current frequency is rejected).  On success the
current frequency and the rate-limit timestamp are updated.  The
hardware driver call is modelled as succeeding. -/
def set_frequency (st : CpuFreqState) (now : Nat) (frequency : Nat) :
    Except CpuFreqImplError CpuFreqState :=
  if st.initialized = false then Except.error CpuFreqImplError.NotInitialized
  else if now - st.last_freq_change < FREQ_CHANGE_MIN_INTERVAL_US then
    Except.error CpuFreqImplError.RateLimited
  else if frequency < MIN_SAFE_FREQUENCY ∨ MAX_SAFE_FREQUENCY < frequency then
    Except.error CpuFreqImplError.InvalidFrequency
  else if st.available_frequencies.contains frequency = false then
    Except.error CpuFreqImplError.UnsupportedFrequency
  else
    match st.temperature with
    | some temp =>
      if THERMAL_CRITICAL_TEMP < temp then Except.error CpuFreqImplError.ThermalThrottled
      else if THERMAL_THROTTLE_TEMP < temp ∧ st.current_frequency < frequency ∧
          st.current_frequency + st.current_frequency / 10 < frequency then
        Except.error CpuFreqImplError.ThermalThrottled
      else
        Except.ok { st with current_frequency := frequency, last_freq_change := now }
    | none =>
      Except.ok { st with current_frequency := frequency, last_freq_change := now }

/-- The error variants of CpuIdleImplError (crate cpuidle_impl) that
cpuidle.rs returns. -/
inductive CpuIdleImplError where
  | NotInitialized
  | InvalidState
  | UnsupportedState
deriving DecidableEq, Repr

/-- MIN_IDLE_STATE from cpuidle.rs line 44. -/
def MIN_IDLE_STATE : Nat := 0

/-- MAX_IDLE_STATE from cpuidle.rs line 45. -/
def MAX_IDLE_STATE : Nat := 7

/-- The cpuidle module state read or written by set_idle_state: the
INITIALIZED flag, the current idle state of the driver and its list of
available idle states. -/
structure CpuIdleState where
  initialized : Bool
  current_idle_state : Nat
  available_states : List Nat
deriving DecidableEq, Repr

/-- set_idle_state from cpuidle.rs lines 123 to 148, guards in source
order: the ensure_initialized check, the range validation against
MIN_IDLE_STATE and MAX_IDLE_STATE, the availability check, then the
driver call (modelled as recording the new current state). -/
def set_idle_state (st : CpuIdleState) (state : Nat) :
    Except CpuIdleImplError CpuIdleState :=
  if st.initialized = false then Except.error CpuIdleImplError.NotInitialized
  else if state < MIN_IDLE_STATE ∨ MAX_IDLE_STATE < state then
    Except.error CpuIdleImplError.InvalidState
  else if st.available_states.contains state = false then
    Except.error CpuIdleImplError.UnsupportedState
  else Except.ok { st with current_idle_state := state }

/-- PSIThresholds from psi.rs lines 21 to 26; the f64 fields are
modelled as rationals. -/
structure PSIThresholds where
  low : Rat
  medium : Rat
  high : Rat
  critical : Rat
deriving DecidableEq, Repr

/-- The Default instance of PSIThresholds, psi.rs lines 28 to 37. -/
def PSIThresholds.default : PSIThresholds :=
  { low := 10, medium := 30, high := 60, critical := 90 }

/-- PSISeverity from psi.rs lines 41 to 47. -/
inductive PSISeverity where
  | None
  | Low
  | Medium
  | High
  | Critical
deriving DecidableEq, Repr

/-- SchedulingHint from psi.rs lines 314 to 319. -/
inductive SchedulingHint where
  | Normal
  | PreferLightTasks
  | LimitNewTasks
  | ReduceLoad
deriving DecidableEq, Repr

/-- PSIConfig from psi.rs lines 51 to 56; the update interval is kept
in milliseconds. -/
structure PSIConfig where
  enabled : Bool
  update_interval : Nat
  thresholds : PSIThresholds
  history_size : Nat
deriving DecidableEq, Repr

/-- The Default instance of PSIConfig, psi.rs lines 58 to 67. -/
def PSIConfig.default : PSIConfig :=
  { enabled := true, update_interval := 100,
    thresholds := PSIThresholds.default, history_size := 60 }

/-- PSIHistoryEntry from psi.rs lines 71 to 77; the Instant timestamp
is kept in milliseconds. -/
structure PSIHistoryEntry where
  timestamp : Nat
  cpu_pressure : Rat
  memory_pressure : Rat
  io_pressure : Rat
  severity : PSISeverity
deriving DecidableEq, Repr

/-- The pressure-event counters record_pressure_events maintains
(psi.rs lines 166 to 179), one per counted PressureType key. -/
structure PressureEvents where
  critical : Nat
  high : Nat
  medium : Nat
deriving DecidableEq, Repr

/-- The PSIScheduler fields (psi.rs lines 81 to 88) the embedded
operations read or write; the external PSIMetrics mirror and the
pressure tracker are omitted (update_metrics copies the tracker
readings, which this embedding takes as inputs). -/
structure PSIScheduler where
  config : PSIConfig
  history : List PSIHistoryEntry
  last_update : Nat
  pressure_events : PressureEvents
deriving DecidableEq, Repr

/-- PSIScheduler.with_config from psi.rs lines 97 to 106, at creation
time zero. -/
def PSIScheduler.with_config (config : PSIConfig) : PSIScheduler :=
  { config := config, history := [], last_update := 0,
    pressure_events := { critical := 0, high := 0, medium := 0 } }

/-- PSIScheduler.calculate_severity from psi.rs lines 149 to 163. -/
def calculate_severity (thresholds : PSIThresholds) (pressure : Rat) : PSISeverity :=
  if thresholds.critical ≤ pressure then PSISeverity.Critical
  else if thresholds.high ≤ pressure then PSISeverity.High
  else if thresholds.medium ≤ pressure then PSISeverity.Medium
  else if thresholds.low ≤ pressure then PSISeverity.Low
  else PSISeverity.None

/-- PSIScheduler.record_pressure_events from psi.rs lines 166 to 179:
critical, high and medium severities bump their counter; low and none
are not recorded. -/
def record_pressure_events (ev : PressureEvents) (severity : PSISeverity) :
    PressureEvents :=
  match severity with
  | PSISeverity.Critical => { ev with critical := ev.critical + 1 }
  | PSISeverity.High => { ev with high := ev.high + 1 }
  | PSISeverity.Medium => { ev with medium := ev.medium + 1 }
  | _ => ev

/-- PSIScheduler.add_history_entry from psi.rs lines 182 to 189: push,
then drop the oldest entry (Vec remove at index zero) when the length
exceeds config.history_size. -/
def add_history_entry (s : PSIScheduler) (entry : PSIHistoryEntry) : PSIScheduler :=
  let h := s.history ++ [entry]
  if s.config.history_size < h.length then { s with history := h.drop 1 }
  else { s with history := h }

/-- PSIScheduler.update_metrics from psi.rs lines 109 to 146.  The
pressure tracker is external; its three readings after the update call
are the arguments c, m and i.  Within update_interval of the previous
update the call is a no-op; otherwise the severity of the maximum
pressure is computed, a pressure event is recorded, the history entry
is appended and the update time advances. -/
def update_metrics (s : PSIScheduler) (now : Nat) (c m i : Rat) : PSIScheduler :=
  if now - s.last_update < s.config.update_interval then s
  else
    let severity := calculate_severity s.config.thresholds (max (max c m) i)
    let entry : PSIHistoryEntry :=
      { timestamp := now, cpu_pressure := c, memory_pressure := m,
        io_pressure := i, severity := severity }
    let s2 := { s with pressure_events := record_pressure_events s.pressure_events severity }
    let s3 := add_history_entry s2 entry
    { s3 with last_update := now }

/-- A sequence of update_metrics calls, each with its own clock reading
and tracker pressures. -/
def run_updates (s : PSIScheduler) (inputs : List (Nat × Rat × Rat × Rat)) :
    PSIScheduler :=
  inputs.foldl (fun acc q => update_metrics acc q.1 q.2.1 q.2.2.1 q.2.2.2) s

/-- PSIScheduler.get_current_severity from psi.rs lines 197 to 201: the
severity of the newest history entry, or None with empty history. -/
def get_current_severity (s : PSIScheduler) : PSISeverity :=
  match s.history.getLast? with
  | some entry => entry.severity
  | none => PSISeverity.None

/-- PSIScheduler.get_scheduling_hint from psi.rs lines 301 to 309. -/
def get_scheduling_hint (s : PSIScheduler) : SchedulingHint :=
  match get_current_severity s with
  | PSISeverity.Critical => SchedulingHint.ReduceLoad
  | PSISeverity.High => SchedulingHint.LimitNewTasks
  | PSISeverity.Medium => SchedulingHint.PreferLightTasks
  | PSISeverity.Low => SchedulingHint.Normal
  | PSISeverity.None => SchedulingHint.Normal

/-- Claim C1, counterexample.  With no current task, no stop candidate,
an rt candidate with id one and a deadline candidate with id two,
make_scheduling_decision switches to the rt candidate, while the class
order the claim states (Stop, then Deadline, then RT, then Fair, then
Idle, first candidate wins) would switch to the deadline candidate. -/
theorem make_scheduling_decision_order_counterexample :
    make_scheduling_decision none
      { stop_pick := none, rt_pick := some 1, dl_pick := some 2, fair_pick := none,
        should_preempt_for_rt := true, should_preempt_for_deadline := true,
        should_preempt_for_fair := true } = ScheduleResult.SwitchTo 1 ∧
    spec_order_decision none
      { stop_pick := none, rt_pick := some 1, dl_pick := some 2, fair_pick := none,
        should_preempt_for_rt := true, should_preempt_for_deadline := true,
        should_preempt_for_fair := true } = ScheduleResult.SwitchTo 2 ∧
    ScheduleResult.SwitchTo 1 ≠ ScheduleResult.SwitchTo 2 := by
  refine ⟨rfl, rfl, ?_⟩
  decide

/-- Claim C1, amended: schedule queries the classes in the fixed order
Stop, then RT, then Deadline, then Fair, then Idle.  A stop candidate
wins outright for any current task, and when the cpu has no current
task the first class returning a candidate wins, falling back to idle
when every class comes up empty. -/
theorem make_scheduling_decision_class_order (o : DecisionOracle) :
    (∀ (current : Option SchedTask) (t : Nat),
      make_scheduling_decision current { o with stop_pick := some t } =
        ScheduleResult.SwitchTo t) ∧
    make_scheduling_decision none o =
      (match o.stop_pick with
       | some t => ScheduleResult.SwitchTo t
       | none =>
         match o.rt_pick with
         | some t => ScheduleResult.SwitchTo t
         | none =>
           match o.dl_pick with
           | some t => ScheduleResult.SwitchTo t
           | none =>
             match o.fair_pick with
             | some t => ScheduleResult.SwitchTo t
             | none => ScheduleResult.GoIdle) := by
  constructor
  · intro current t
    rfl
  · rcases o with ⟨sp, rp, dp, fp, pr, pd, pf⟩
    cases sp <;> cases rp <;> cases dp <;> cases fp <;> rfl

/-- Claim C2: with the scheduler Running, wake_up_task sets the state
of the task to Runnable (recording the wake time) and enqueues it on
the runqueue its policy selects: Normal and Interactive on the fair
queue, Batch and Background on the fair queue through the batch
enqueue, Fifo and RoundRobin on the rt queue, Deadline on the deadline
queue and Idle on the idle queue. -/
theorem wake_up_task_sets_runnable_and_enqueues
    (st : CoreState) (now : Nat) (rtPreempt dlPreempt : Bool) (task : SchedTask)
    (h : st.state = SchedulerState.Running) :
    ∃ resched : Bool,
      wake_up_task st now rtPreempt dlPreempt task =
        Except.ok ({ task with state := TaskState.Runnable, wake_time := now },
          (match task.policy with
           | SchedPolicy.Normal => RunQueue.fair
           | SchedPolicy.Interactive => RunQueue.fair
           | SchedPolicy.Batch => RunQueue.fairBatch
           | SchedPolicy.Background => RunQueue.fairBatch
           | SchedPolicy.Fifo => RunQueue.rt
           | SchedPolicy.RoundRobin => RunQueue.rt
           | SchedPolicy.Deadline => RunQueue.deadline
           | SchedPolicy.Idle => RunQueue.idleQ),
          resched) := by
  have hcs : st.state.can_schedule = true := by
    rw [h]
    rfl
  obtain ⟨tid, tstate, tpolicy, tcpu, taff, twake⟩ := task
  cases tpolicy with
  | Normal => exact ⟨false, by simp [wake_up_task, hcs]⟩
  | Interactive => exact ⟨false, by simp [wake_up_task, hcs]⟩
  | Batch => exact ⟨false, by simp [wake_up_task, hcs]⟩
  | Background => exact ⟨false, by simp [wake_up_task, hcs]⟩
  | Fifo => exact ⟨rtPreempt, by simp [wake_up_task, hcs]⟩
  | RoundRobin => exact ⟨rtPreempt, by simp [wake_up_task, hcs]⟩
  | Deadline => exact ⟨dlPreempt, by simp [wake_up_task, hcs]⟩
  | Idle => exact ⟨false, by simp [wake_up_task, hcs]⟩

/-- Claim C2 witness: waking a Blocked Deadline task on a Running
scheduler at time seven. -/
theorem wake_up_task_sets_runnable_and_enqueues_witness :
    ∃ resched : Bool,
      wake_up_task
        { state := SchedulerState.Running, emergency_stop := false, tick_counter := 0,
          last_balance_time := 0, balance_interval := 100,
          stats := { context_switches := 0, preemptions := 0, migrations := 0,
                     load_balance_calls := 0, scheduler_ticks := 0 } }
        7 true false
        { id := 3, state := TaskState.Blocked, policy := SchedPolicy.Deadline,
          current_cpu := 0, affinity := [0], wake_time := 0 } =
      Except.ok
        ({ id := 3, state := TaskState.Runnable, policy := SchedPolicy.Deadline,
           current_cpu := 0, affinity := [0], wake_time := 7 },
         RunQueue.deadline, resched) := by
  exact wake_up_task_sets_runnable_and_enqueues _ 7 true false _ rfl

/-- Claim C3: with the default thresholds, the severity of a pressure
value p taken as the maximum of the cpu, memory and io pressures is
Critical exactly when p is at least ninety percent, High on sixty up to
ninety, Medium on thirty up to sixty, Low on ten up to thirty and None
below ten; and get_scheduling_hint maps the current severity Critical
to ReduceLoad, High to LimitNewTasks, Medium to PreferLightTasks, and
Low and None to Normal. -/
theorem calculate_severity_buckets_and_hint (c m i : Rat) :
    (calculate_severity PSIThresholds.default (max (max c m) i) = PSISeverity.Critical ↔
      90 ≤ max (max c m) i) ∧
    (calculate_severity PSIThresholds.default (max (max c m) i) = PSISeverity.High ↔
      60 ≤ max (max c m) i ∧ max (max c m) i < 90) ∧
    (calculate_severity PSIThresholds.default (max (max c m) i) = PSISeverity.Medium ↔
      30 ≤ max (max c m) i ∧ max (max c m) i < 60) ∧
    (calculate_severity PSIThresholds.default (max (max c m) i) = PSISeverity.Low ↔
      10 ≤ max (max c m) i ∧ max (max c m) i < 30) ∧
    (calculate_severity PSIThresholds.default (max (max c m) i) = PSISeverity.None ↔
      max (max c m) i < 10) ∧
    (∀ s : PSIScheduler,
      get_scheduling_hint s =
        match get_current_severity s with
        | PSISeverity.Critical => SchedulingHint.ReduceLoad
        | PSISeverity.High => SchedulingHint.LimitNewTasks
        | PSISeverity.Medium => SchedulingHint.PreferLightTasks
        | PSISeverity.Low => SchedulingHint.Normal
        | PSISeverity.None => SchedulingHint.Normal) := by
  generalize max (max c m) i = p
  refine ⟨?_, ?_, ?_, ?_, ?_, fun s => rfl⟩ <;>
    · unfold calculate_severity PSIThresholds.default
      split_ifs with h1 h2 h3 h4 <;>
        simp_all [not_le, not_lt] <;>
        first
          | linarith
          | (intro h5; linarith)

/-- Claim C4: when the reported temperature exceeds the 95 degree
critical threshold, a set_frequency request that would raise the
frequency and passes the earlier gates (initialized, not rate limited,
within the safe range, available) is rejected with ThermalThrottled;
moreover every set_frequency call whatsoever fails in that state, so no
call changes the current frequency and it can never exceed its prior
value (an error return leaves the module state untouched by
construction of the embedding). -/
theorem set_frequency_critical_temp_rejected
    (st : CpuFreqState) (now frequency temp : Nat)
    (hinit : st.initialized = true)
    (hrate : FREQ_CHANGE_MIN_INTERVAL_US ≤ now - st.last_freq_change)
    (hlo : MIN_SAFE_FREQUENCY ≤ frequency)
    (hhi : frequency ≤ MAX_SAFE_FREQUENCY)
    (havail : st.available_frequencies.contains frequency = true)
    (htemp : st.temperature = some temp)
    (hcrit : THERMAL_CRITICAL_TEMP < temp)
    (hraise : st.current_frequency < frequency) :
    set_frequency st now frequency = Except.error CpuFreqImplError.ThermalThrottled ∧
    ∀ f now2, ∃ e, set_frequency st now2 f = Except.error e := by
  have hmem : frequency ∈ st.available_frequencies := by simpa using havail
  constructor
  · simp [set_frequency, hinit, htemp, not_lt.mpr hrate, not_lt.mpr hlo,
      not_lt.mpr hhi, hmem, hcrit]
  · intro f now2
    by_cases g1 : st.initialized = false
    · exact ⟨CpuFreqImplError.NotInitialized, by simp [set_frequency, g1]⟩
    · by_cases g2 : now2 - st.last_freq_change < FREQ_CHANGE_MIN_INTERVAL_US
      · exact ⟨CpuFreqImplError.RateLimited, by simp [set_frequency, g1, g2]⟩
      · by_cases g3 : f < MIN_SAFE_FREQUENCY ∨ MAX_SAFE_FREQUENCY < f
        · exact ⟨CpuFreqImplError.InvalidFrequency, by simp [set_frequency, g1, g2, g3]⟩
        · by_cases g4 : f ∈ st.available_frequencies
          · exact ⟨CpuFreqImplError.ThermalThrottled,
              by simp [set_frequency, g1, g2, g3, g4, htemp, hcrit]⟩
          · exact ⟨CpuFreqImplError.UnsupportedFrequency,
              by simp [set_frequency, g1, g2, g3, g4]⟩

/-- Claim C4 witness: with temperature 96, raising from 400 MHz to the
available 1 GHz 20 ms after the last change fails ThermalThrottled. -/
theorem set_frequency_critical_temp_rejected_witness :
    set_frequency
      { initialized := true, last_freq_change := 0, current_frequency := 400000000,
        available_frequencies := [400000000, 1000000000], temperature := some 96 }
      20000 1000000000 = Except.error CpuFreqImplError.ThermalThrottled :=
  (set_frequency_critical_temp_rejected _ 20000 1000000000 96 rfl (by decide)
    (by decide) (by decide) (by decide) rfl (by decide) (by decide)).1

/-- Claim C5: a set_frequency call on an initialized module less than
FREQ_CHANGE_MIN_INTERVAL_US after the recorded last change fails with
RateLimited (leaving the frequency unchanged, as every error return
does), and every successful call records the call time as the new
rate-limit timestamp and the requested frequency as current. -/
theorem set_frequency_rate_limited
    (st : CpuFreqState) (now frequency : Nat)
    (hinit : st.initialized = true)
    (hfast : now - st.last_freq_change < FREQ_CHANGE_MIN_INTERVAL_US) :
    set_frequency st now frequency = Except.error CpuFreqImplError.RateLimited ∧
    ∀ (st2 : CpuFreqState) (now2 f : Nat) (st3 : CpuFreqState),
      set_frequency st2 now2 f = Except.ok st3 →
      st3.last_freq_change = now2 ∧ st3.current_frequency = f := by
  constructor
  · simp [set_frequency, hinit, hfast]
  · intro st2 now2 f st3 hok
    unfold set_frequency at hok
    cases ht : st2.temperature <;> rw [ht] at hok <;>
      simp only [] at hok <;> split_ifs at hok <;> simp at hok <;>
      exact ⟨hok.symm ▸ rfl, hok.symm ▸ rfl⟩

/-- Claim C5 witness: a call 4 ms after the last change is rejected
RateLimited. -/
theorem set_frequency_rate_limited_witness :
    set_frequency
      { initialized := true, last_freq_change := 5000, current_frequency := 400000000,
        available_frequencies := [400000000], temperature := none }
      9000 400000000 = Except.error CpuFreqImplError.RateLimited :=
  (set_frequency_rate_limited _ 9000 400000000 rfl (by decide)).1

/-- Claim C6: when the external can_migrate_to pre-check passes but the
target cpu is outside the affinity mask of the task, migrate_task fails
with AffinityViolation, performing nothing (an error return leaves the
scheduler state and the task untouched by construction); and every
successful migration had the target in the affinity mask and bumps the
migrations counter by exactly one. -/
theorem migrate_task_rejects_affinity_violation
    (canMigrate : Bool) (safeResult : Except SchedulerError SchedTask)
    (st : CoreState) (task : SchedTask) (target : Nat)
    (hcan : canMigrate = true)
    (haff : task.affinity.contains target = false) :
    migrate_task canMigrate safeResult st task target =
      Except.error SchedulerError.AffinityViolation ∧
    ∀ (cm : Bool) (sr : Except SchedulerError SchedTask) (st2 : CoreState)
      (t2 : SchedTask) (tgt : Nat) (st3 : CoreState) (t3 : SchedTask),
      migrate_task cm sr st2 t2 tgt = Except.ok (st3, t3) →
      t2.affinity.contains tgt = true ∧
      st3.stats.migrations = st2.stats.migrations + 1 := by
  have hnot : target ∉ task.affinity := by simpa using haff
  constructor
  · simp [migrate_task, hcan, hnot]
  · intro cm sr st2 t2 tgt st3 t3 hok
    unfold migrate_task at hok
    split_ifs at hok with g1 g2
    · cases hsr : sr <;> rw [hsr] at hok <;> simp at hok
      refine ⟨by simpa using g2, ?_⟩
      exact hok.1.symm ▸ rfl

/-- Claim C6 witness: target cpu 2 against affinity mask of cpus 0
and 1. -/
theorem migrate_task_rejects_affinity_violation_witness :
    migrate_task true (Except.error SchedulerError.TaskNotFound)
      { state := SchedulerState.Running, emergency_stop := false, tick_counter := 0,
        last_balance_time := 0, balance_interval := 100,
        stats := { context_switches := 0, preemptions := 0, migrations := 0,
                   load_balance_calls := 0, scheduler_ticks := 0 } }
      { id := 1, state := TaskState.Runnable, policy := SchedPolicy.Normal,
        current_cpu := 0, affinity := [0, 1], wake_time := 0 }
      2 = Except.error SchedulerError.AffinityViolation :=
  (migrate_task_rejects_affinity_violation true _ _ _ 2 rfl (by decide)).1

/-- Claim C7: a set_frequency request whose frequency is inside the
safe range but not in the available list fails UnsupportedFrequency
(given the earlier initialization and rate-limit gates pass), and a
set_idle_state request whose state is inside the valid range but not
among the available idle states fails UnsupportedState; both error
returns leave the module state untouched by construction. -/
theorem set_frequency_and_idle_state_unsupported
    (st : CpuFreqState) (now frequency : Nat) (sti : CpuIdleState) (state : Nat)
    (hinit : st.initialized = true)
    (hrate : FREQ_CHANGE_MIN_INTERVAL_US ≤ now - st.last_freq_change)
    (hlo : MIN_SAFE_FREQUENCY ≤ frequency)
    (hhi : frequency ≤ MAX_SAFE_FREQUENCY)
    (havail : st.available_frequencies.contains frequency = false)
    (hiinit : sti.initialized = true)
    (hile : state ≤ MAX_IDLE_STATE)
    (hiavail : sti.available_states.contains state = false) :
    set_frequency st now frequency = Except.error CpuFreqImplError.UnsupportedFrequency ∧
    set_idle_state sti state = Except.error CpuIdleImplError.UnsupportedState := by
  have hnotf : frequency ∉ st.available_frequencies := by simpa using havail
  have hnoti : state ∉ sti.available_states := by simpa using hiavail
  constructor
  · simp [set_frequency, hinit, not_lt.mpr hrate, not_lt.mpr hlo,
      not_lt.mpr hhi, hnotf]
  · simp [set_idle_state, MIN_IDLE_STATE, hiinit, not_lt.mpr hile, hnoti]

/-- Claim C7 witness: 500 MHz against an available list holding only
400 MHz, and idle state 3 against available states 0 and 1. -/
theorem set_frequency_and_idle_state_unsupported_witness :
    set_frequency
      { initialized := true, last_freq_change := 0, current_frequency := 400000000,
        available_frequencies := [400000000], temperature := none }
      10000 500000000 = Except.error CpuFreqImplError.UnsupportedFrequency ∧
    set_idle_state
      { initialized := true, current_idle_state := 0, available_states := [0, 1] }
      3 = Except.error CpuIdleImplError.UnsupportedState :=
  set_frequency_and_idle_state_unsupported _ 10000 500000000 _ 3 rfl (by decide)
    (by decide) (by decide) (by decide) rfl (by decide) (by decide)

/-- Helper: add_history_entry cannot grow the history past the
configured size when it was within the size before. -/
theorem add_history_entry_length_le (s : PSIScheduler) (e : PSIHistoryEntry)
    (h : s.history.length ≤ s.config.history_size) :
    (add_history_entry s e).history.length ≤ s.config.history_size := by
  simp only [add_history_entry]
  split_ifs with hgt <;>
    simp only [List.length_drop, List.length_append, List.length_cons,
      List.length_nil, List.length_singleton] at hgt ⊢ <;> omega

/-- Helper: update_metrics keeps the configuration and preserves the
history bound. -/
theorem update_metrics_invariant (s : PSIScheduler) (now : Nat) (c m i : Rat)
    (h : s.history.length ≤ s.config.history_size) :
    (update_metrics s now c m i).config = s.config ∧
    (update_metrics s now c m i).history.length ≤ s.config.history_size := by
  simp only [update_metrics]
  split_ifs with hlt
  · exact ⟨rfl, h⟩
  · constructor
    · simp only [add_history_entry]
      split_ifs <;> rfl
    · exact add_history_entry_length_le _ _ h

/-- Helper: any run of update_metrics calls preserves the history
bound. -/
theorem run_updates_length_le (inputs : List (Nat × Rat × Rat × Rat)) :
    ∀ s : PSIScheduler, s.history.length ≤ s.config.history_size →
      (run_updates s inputs).history.length ≤ s.config.history_size := by
  induction inputs with
  | nil => exact fun s h => h
  | cons q rest ih =>
    intro s h
    have hinv := update_metrics_invariant s q.1 q.2.1 q.2.2.1 q.2.2.2 h
    have hrec := ih (update_metrics s q.1 q.2.1 q.2.2.1 q.2.2.2) (by rw [hinv.1]; exact hinv.2)
    calc (run_updates s (q :: rest)).history.length
        = (run_updates (update_metrics s q.1 q.2.1 q.2.2.1 q.2.2.2) rest).history.length := rfl
      _ ≤ (update_metrics s q.1 q.2.1 q.2.2.1 q.2.2.2).config.history_size := hrec
      _ = s.config.history_size := by rw [hinv.1]

/-- Claim C8: after any sequence of update_metrics calls starting from
a freshly constructed PSIScheduler, the history holds at most
config.history_size entries, and once the bound is reached adding a new
entry drops the oldest one (index zero), keeping the length at the
bound. -/
theorem psi_history_bounded (cfg : PSIConfig) (inputs : List (Nat × Rat × Rat × Rat)) :
    (run_updates (PSIScheduler.with_config cfg) inputs).history.length ≤ cfg.history_size ∧
    (∀ (s : PSIScheduler) (e : PSIHistoryEntry),
      s.history.length = s.config.history_size → 0 < s.config.history_size →
      (add_history_entry s e).history = s.history.drop 1 ++ [e] ∧
      (add_history_entry s e).history.length = s.config.history_size) := by
  constructor
  · exact run_updates_length_le inputs (PSIScheduler.with_config cfg)
      (by simp [PSIScheduler.with_config])
  · intro s e hlen hpos
    simp only [add_history_entry]
    rw [if_pos (by simp only [List.length_append, List.length_cons, List.length_nil]; omega)]
    constructor
    · exact List.drop_append_of_le_length (by omega)
    · simp only [List.length_append, List.length_drop, List.length_cons, List.length_nil]
      omega

/-- Claim C8 witness: with history size one, two recorded updates keep
the length at one, and adding to a full one-entry history replaces the
entry. -/
theorem psi_history_bounded_witness :
    (run_updates
      (PSIScheduler.with_config
        { enabled := true, update_interval := 0,
          thresholds := PSIThresholds.default, history_size := 1 })
      [(1, 5, 0, 0), (2, 50, 0, 0)]).history.length ≤ 1 ∧
    (add_history_entry
      { config := { enabled := true, update_interval := 0,
                    thresholds := PSIThresholds.default, history_size := 1 },
        history := [{ timestamp := 0, cpu_pressure := 0, memory_pressure := 0,
                      io_pressure := 0, severity := PSISeverity.None }],
        last_update := 0,
        pressure_events := { critical := 0, high := 0, medium := 0 } }
      { timestamp := 9, cpu_pressure := 1, memory_pressure := 2,
        io_pressure := 3, severity := PSISeverity.None }).history =
      [{ timestamp := 9, cpu_pressure := 1, memory_pressure := 2,
         io_pressure := 3, severity := PSISeverity.None }] := by
  constructor
  · exact (psi_history_bounded _ _).1
  · exact ((psi_history_bounded
      { enabled := true, update_interval := 0,
        thresholds := PSIThresholds.default, history_size := 1 } []).2
      _ _ rfl Nat.one_pos).1

/-- Claim C9: while the scheduler state machine is not Running, both
schedule and wake_up_task fail with NotRunning; neither makes a
scheduling decision nor changes any task or counter (an error return
leaves every modelled state untouched by construction). -/
theorem schedule_and_wake_require_running
    (current : Option SchedTask) (o : DecisionOracle) (st : CoreState)
    (now : Nat) (rtP dlP : Bool) (task : SchedTask)
    (h : st.state ≠ SchedulerState.Running) :
    schedule current o st = Except.error SchedulerError.NotRunning ∧
    wake_up_task st now rtP dlP task = Except.error SchedulerError.NotRunning := by
  have hcs : st.state.can_schedule = false := by
    cases hs : st.state <;> first | rfl | exact absurd hs h
  exact ⟨by simp [schedule, hcs], by simp [wake_up_task, hcs]⟩

/-- Claim C9 witness: a Stopped scheduler rejects both calls. -/
theorem schedule_and_wake_require_running_witness :
    schedule none
      { stop_pick := none, rt_pick := none, dl_pick := none, fair_pick := none,
        should_preempt_for_rt := false, should_preempt_for_deadline := false,
        should_preempt_for_fair := false }
      { state := SchedulerState.Stopped, emergency_stop := false, tick_counter := 0,
        last_balance_time := 0, balance_interval := 100,
        stats := { context_switches := 0, preemptions := 0, migrations := 0,
                   load_balance_calls := 0, scheduler_ticks := 0 } } =
      Except.error SchedulerError.NotRunning ∧
    wake_up_task
      { state := SchedulerState.Stopped, emergency_stop := false, tick_counter := 0,
        last_balance_time := 0, balance_interval := 100,
        stats := { context_switches := 0, preemptions := 0, migrations := 0,
                   load_balance_calls := 0, scheduler_ticks := 0 } }
      4 false false
      { id := 1, state := TaskState.Blocked, policy := SchedPolicy.Normal,
        current_cpu := 0, affinity := [0], wake_time := 0 } =
      Except.error SchedulerError.NotRunning :=
  schedule_and_wake_require_running _ _ _ 4 false false _ (by decide)

/-- Claim C10: while the scheduler state machine is not Running,
load_balance returns Ok with the state unchanged (so no balancing, no
migration and no counter update happens), in contrast to schedule and
wake_up_task, which fail with NotRunning in the same state. -/
theorem load_balance_silent_when_not_running
    (st : CoreState) (now migrated : Nat)
    (current : Option SchedTask) (o : DecisionOracle)
    (now2 : Nat) (rtP dlP : Bool) (task : SchedTask)
    (h : st.state ≠ SchedulerState.Running) :
    load_balance now migrated st = Except.ok st ∧
    schedule current o st = Except.error SchedulerError.NotRunning ∧
    wake_up_task st now2 rtP dlP task = Except.error SchedulerError.NotRunning := by
  have hcs : st.state.can_schedule = false := by
    cases hs : st.state <;> first | rfl | exact absurd hs h
  exact ⟨by simp [load_balance, hcs], by simp [schedule, hcs],
    by simp [wake_up_task, hcs]⟩

/-- Claim C10 witness: a Suspended scheduler silently accepts
load_balance yet rejects schedule and wake_up_task. -/
theorem load_balance_silent_when_not_running_witness :
    load_balance 777 3
      { state := SchedulerState.Suspended, emergency_stop := false, tick_counter := 0,
        last_balance_time := 0, balance_interval := 100,
        stats := { context_switches := 0, preemptions := 0, migrations := 0,
                   load_balance_calls := 0, scheduler_ticks := 0 } } =
      Except.ok
        { state := SchedulerState.Suspended, emergency_stop := false, tick_counter := 0,
          last_balance_time := 0, balance_interval := 100,
          stats := { context_switches := 0, preemptions := 0, migrations := 0,
                     load_balance_calls := 0, scheduler_ticks := 0 } } ∧
    schedule none
      { stop_pick := none, rt_pick := none, dl_pick := none, fair_pick := none,
        should_preempt_for_rt := false, should_preempt_for_deadline := false,
        should_preempt_for_fair := false }
      { state := SchedulerState.Suspended, emergency_stop := false, tick_counter := 0,
        last_balance_time := 0, balance_interval := 100,
        stats := { context_switches := 0, preemptions := 0, migrations := 0,
                   load_balance_calls := 0, scheduler_ticks := 0 } } =
      Except.error SchedulerError.NotRunning ∧
    wake_up_task
      { state := SchedulerState.Suspended, emergency_stop := false, tick_counter := 0,
        last_balance_time := 0, balance_interval := 100,
        stats := { context_switches := 0, preemptions := 0, migrations := 0,
                   load_balance_calls := 0, scheduler_ticks := 0 } }
      5 true true
      { id := 2, state := TaskState.Blocked, policy := SchedPolicy.Fifo,
        current_cpu := 0, affinity := [0], wake_time := 0 } =
      Except.error SchedulerError.NotRunning :=
  load_balance_silent_when_not_running _ 777 3 none _ 5 true true _ (by decide)
